import Mathlib

/-!
Verification of the Image class of DIPlib (src/include/diplib/image.h):
the ownership and aliasing engine (SharesData, Aliases, IsIdenticalView,
IsOverlappingView and its collection overloads), the raw-state mutators
(SetSizes, SetStrides, SetTensorStride, SetDataType, SetTensorSizes,
CopyProperties, SetExternalInterface), Strip, and QuickCopy.

Machine integers (dip::uint, dip::sint) are modelled as Nat and Int;
pointers (origin_, dataBlock_, externalInterface_) are modelled as
Option-valued identifiers where only identity comparison matters.
C++ exceptions are modelled as Except for const queries, and as a pair
of an optional error and the resulting object state for mutators, so
that the state visible after a throw is explicit.
-/

namespace Dip

/-- The supported numeric kinds, from dip::DataType (datatype.h); only the
enumeration and its equality matter for the properties verified here. -/
inductive DataType where
  | DT_BIN | DT_UINT8 | DT_UINT16 | DT_UINT32
  | DT_SINT8 | DT_SINT16 | DT_SINT32
  | DT_SFLOAT | DT_DFLOAT | DT_SCOMPLEX | DT_DCOMPLEX
deriving DecidableEq, Repr

/-- Modelled from the spec: tensor.h is not among the sources; the spec
describes the tensor descriptor as an element count plus a shape tag
(vector, full matrix, symmetric/diagonal/triangular matrix). -/
inductive TensorShape where
  | colVector | rowVector | colMajorMatrix
  | symmetricMatrix | diagonalMatrix | upperTriangularMatrix | lowerTriangularMatrix
deriving DecidableEq, Repr

/-- Modelled from the spec: the per-pixel sample grouping descriptor
(dip::Tensor), an element count plus a shape tag. The default tensor is a
scalar: one element, column-vector shape. -/
structure Tensor where
  shape : TensorShape := TensorShape.colVector
  elements : Nat := 1
deriving DecidableEq, Repr

/-- Modelled from the spec: Tensor::SetVector(nelems) makes the tensor a
vector with the given number of elements. -/
def Tensor.setVector (n : Nat) : Tensor :=
  { shape := TensorShape.colVector, elements := n }

/-- Modelled from the spec: physdims.h is not among the sources; the spec
describes pixelSize as an optional physical-units-per-pixel-per-dimension
record; only default-initialization and equality matter here. -/
structure PixelSize where
  entries : List Int := []
deriving DecidableEq, Repr

/-- The error conditions raised by the Image operations verified here:
E::IMAGE_NOT_RAW, E::IMAGE_NOT_FORGED, and the "Image is protected"
condition raised by Strip. -/
inductive DipError where
  | imageNotRaw
  | imageNotForged
  | imageProtected
deriving DecidableEq, Repr

/-- The dip::Image class: the private fields of image.h, with their C++
default member initializers. `dataBlock` models the shared_ptr as the
identity of the referenced block (none = nullptr); `origin` models the
origin pointer as an absolute sample address (none = nullptr);
`externalInterface` models the interface pointer by identity. -/
structure Image where
  dataType : DataType := DataType.DT_SFLOAT
  sizes : List Nat := []
  strides : List Int := []
  tensor : Tensor := {}
  tensorStride : Int := 0
  protect : Bool := false
  colorSpace : String := ""
  pixelSize : PixelSize := {}
  dataBlock : Option Nat := none
  origin : Option Int := none
  externalInterface : Option Nat := none
deriving DecidableEq, Repr

namespace Image

/-- Image::IsForged: the image is forged iff origin_ is not null. -/
def IsForged (img : Image) : Bool :=
  img.origin.isSome

/-- Image::SetSizes: requires raw state, then stores the sizes array. -/
def SetSizes (img : Image) (d : List Nat) : Option DipError × Image :=
  if img.IsForged then (some DipError.imageNotRaw, img)
  else (none, { img with sizes := d })

/-- Image::SetStrides: requires raw state, then stores the strides array. -/
def SetStrides (img : Image) (s : List Int) : Option DipError × Image :=
  if img.IsForged then (some DipError.imageNotRaw, img)
  else (none, { img with strides := s })

/-- Image::SetTensorStride: requires raw state, then stores the tensor stride. -/
def SetTensorStride (img : Image) (ts : Int) : Option DipError × Image :=
  if img.IsForged then (some DipError.imageNotRaw, img)
  else (none, { img with tensorStride := ts })

/-- Image::SetDataType: requires raw state, then stores the data type. -/
def SetDataType (img : Image) (dt : DataType) : Option DipError × Image :=
  if img.IsForged then (some DipError.imageNotRaw, img)
  else (none, { img with dataType := dt })

/-- Image::SetTensorSizes(dip::uint nelems): requires raw state, then calls
tensor_.SetVector(nelems). -/
def SetTensorSizes (img : Image) (n : Nat) : Option DipError × Image :=
  if img.IsForged then (some DipError.imageNotRaw, img)
  else (none, { img with tensor := Tensor.setVector n })

/-- Image::CopyProperties: requires raw state, then copies data type, sizes,
strides, tensor, tensor stride, color space and pixel size from src; the
external interface is copied only when this image has none. -/
def CopyProperties (img : Image) (src : Image) : Option DipError × Image :=
  if img.IsForged then (some DipError.imageNotRaw, img)
  else (none, { img with
    dataType := src.dataType
    sizes := src.sizes
    strides := src.strides
    tensor := src.tensor
    tensorStride := src.tensorStride
    colorSpace := src.colorSpace
    pixelSize := src.pixelSize
    externalInterface :=
      if img.externalInterface = none then src.externalInterface
      else img.externalInterface })

/-- Image::SetExternalInterface: requires raw state, then stores the pointer. -/
def SetExternalInterface (img : Image) (ei : Option Nat) : Option DipError × Image :=
  if img.IsForged then (some DipError.imageNotRaw, img)
  else (none, { img with externalInterface := ei })

/-- Image::Strip: when forged, throws "Image is protected" if the protect
flag is set, else nulls dataBlock_ and origin_; when raw, does nothing. -/
def Strip (img : Image) : Option DipError × Image :=
  if img.IsForged then
    if img.protect then (some DipError.imageProtected, img)
    else (none, { img with dataBlock := none, origin := none })
  else (none, img)

/-- Image::Protect. -/
def Protect (img : Image) (set : Bool := true) : Image :=
  { img with protect := set }

/-- Image::IsProtected. -/
def IsProtected (img : Image) : Bool :=
  img.protect

/-- Image::SharesData: both images must be forged; true iff the two
dataBlock_ pointers are equal. -/
def SharesData (a b : Image) : Except DipError Bool :=
  if !a.IsForged then Except.error DipError.imageNotForged
  else if !b.IsForged then Except.error DipError.imageNotForged
  else Except.ok (decide (a.dataBlock = b.dataBlock))

/-- The comparison performed by Image::IsIdenticalView once both images are
known to be forged: origin, data type, strides and tensor stride all equal. -/
def isIdenticalViewB (a b : Image) : Bool :=
  decide (a.origin = b.origin) && decide (a.dataType = b.dataType) &&
    decide (a.strides = b.strides) && decide (a.tensorStride = b.tensorStride)

/-- Image::IsIdenticalView: both images must be forged; true iff origin,
data type, strides and tensor stride are all equal. -/
def IsIdenticalView (a b : Image) : Except DipError Bool :=
  if !a.IsForged then Except.error DipError.imageNotForged
  else if !b.IsForged then Except.error DipError.imageNotForged
  else Except.ok (a.isIdenticalViewB b)

end Image

/-- All coordinate tuples within the given sizes bounds, each coordinate
ranging over 0 .. size-1. -/
def allCoords : List Nat → List (List Nat)
  | [] => [[]]
  | n :: rest => (List.range n).flatMap fun c => (allCoords rest).map fun cs => c :: cs

/-- Dot product of a coordinate tuple with the strides array. -/
def offsetOfCoords (coords : List Nat) (strides : List Int) : Int :=
  (List.zipWith (fun (c : Nat) (s : Int) => (c : Int) * s) coords strides).sum

namespace Image

/-- Modelled from the spec: the set of sample addresses reachable from a
view, implied by its origin, strides, sizes, and tensor layout; addresses
are measured in samples from the origin pointer. A raw view reaches no
address. -/
def sampleAddresses (img : Image) : List Int :=
  match img.origin with
  | none => []
  | some o =>
    (allCoords img.sizes).flatMap fun cs =>
      (List.range img.tensor.elements).map fun t =>
        o + offsetOfCoords cs img.strides + (t : Int) * img.tensorStride

/-- Modelled from the spec: the aliasing test performed by Image::Aliases
(defined in src/library/image_data.cpp, which is not among the sources)
once both images are known to be forged: some sample address is reachable
from both views, computed by intersecting the two address sets. -/
def aliasesB (a b : Image) : Bool :=
  a.sampleAddresses.any fun x => decide (x ∈ b.sampleAddresses)

/-- Modelled from the spec: Image::Aliases; both images must be forged;
true iff any sample address is reachable from both views. -/
def Aliases (a b : Image) : Except DipError Bool :=
  if !a.IsForged then Except.error DipError.imageNotForged
  else if !b.IsForged then Except.error DipError.imageNotForged
  else Except.ok (a.aliasesB b)

/-- Image::IsOverlappingView(Image): Aliases(other) && !IsIdenticalView(other),
with the C++ short-circuit of && and exception propagation. -/
def IsOverlappingView (a b : Image) : Except DipError Bool :=
  match a.Aliases b with
  | Except.error e => Except.error e
  | Except.ok al =>
    if al then
      match a.IsIdenticalView b with
      | Except.error e => Except.error e
      | Except.ok idv => Except.ok (!idv)
    else Except.ok false

/-- The collection overloads of Image::IsOverlappingView (both the
ImageConstRefArray and the ImageArray overload have this body): loop over
the candidates, and return true at the first candidate that is forged and
overlaps; return false when the loop ends. -/
def isOverlappingViewList (a : Image) : List Image → Except DipError Bool
  | [] => Except.ok false
  | b :: rest =>
    if b.IsForged then
      match a.IsOverlappingView b with
      | Except.error e => Except.error e
      | Except.ok true => Except.ok true
      | Except.ok false => a.isOverlappingViewList rest
    else a.isOverlappingViewList rest

/-- Image::QuickCopy: a default-constructed image whose data type, sizes,
strides, tensor, tensor stride, data block, origin and external interface
are copied from this image. -/
def QuickCopy (img : Image) : Image :=
  { dataType := img.dataType
    sizes := img.sizes
    strides := img.strides
    tensor := img.tensor
    tensorStride := img.tensorStride
    dataBlock := img.dataBlock
    origin := img.origin
    externalInterface := img.externalInterface }

end Image

/-- The number of views in a collection that hold a reference to storage
block b: the use count of the shared_ptr when the collection lists every
referencing view. -/
def refCount (views : List Image) (b : Nat) : Nat :=
  (views.filter fun v => decide (v.dataBlock = some b)).length

/-- A default-constructed, raw image. -/
def rawImg : Image := {}

/-- A raw image whose protect flag is set. -/
def rawProtected : Image := { protect := true }

/-- A forged 1-D image of two pixels at addresses 0 and 1 of block 0. -/
def imgA : Image :=
  { sizes := [2], strides := [1], tensorStride := 1
    dataBlock := some 0, origin := some 0 }

/-- A forged 1-D image of two pixels at addresses 1 and 2 of block 0:
it overlaps imgA at address 1 without being an identical view. -/
def imgB : Image :=
  { sizes := [2], strides := [1], tensorStride := 1
    dataBlock := some 0, origin := some 1 }

/-- A forged, protected image on block 1. -/
def imgP : Image :=
  { sizes := [2], strides := [1], tensorStride := 1
    dataBlock := some 1, origin := some 0, protect := true }

/-- A forged, unprotected image on block 1 at addresses 10 and 11: it is
disjoint from imgA and imgB. -/
def imgC : Image :=
  { sizes := [2], strides := [1], tensorStride := 1
    dataBlock := some 1, origin := some 10 }

example : imgA.sampleAddresses = [0, 1] := by decide
example : imgB.sampleAddresses = [1, 2] := by decide
example : imgA.aliasesB imgB = true := by decide
example : imgA.aliasesB imgC = false := by decide
example : imgA.IsOverlappingView imgB = Except.ok true := rfl
example : imgA.IsOverlappingView imgA = Except.ok false := rfl
example : imgA.IsOverlappingView imgC = Except.ok false := rfl
example : rawImg.IsOverlappingView imgA = Except.error DipError.imageNotForged := rfl
example : imgA.isOverlappingViewList [rawImg, imgB] = Except.ok true := rfl
example : imgA.isOverlappingViewList [rawImg, rawProtected] = Except.ok false := rfl
example : rawImg.isOverlappingViewList [rawProtected] = Except.ok false := rfl
example : rawImg.isOverlappingViewList [imgA] = Except.error DipError.imageNotForged := rfl
example : imgP.Strip = (some DipError.imageProtected, imgP) := by decide
example : rawProtected.Strip = (none, rawProtected) := by decide
example : (imgA.Strip).2.IsForged = false := by decide

/-! Helper lemmas about the aliasing queries. -/

theorem aliases_ok (a b : Image) (h1 : a.IsForged = true) (h2 : b.IsForged = true) :
    a.Aliases b = Except.ok (a.aliasesB b) := by
  simp [Image.Aliases, h1, h2]

theorem aliases_err_left (a b : Image) (h : a.IsForged = false) :
    a.Aliases b = Except.error DipError.imageNotForged := by
  simp [Image.Aliases, h]

theorem aliases_err_right (a b : Image) (h2 : b.IsForged = false) :
    a.Aliases b = Except.error DipError.imageNotForged := by
  cases h1 : a.IsForged
  · exact aliases_err_left a b h1
  · simp [Image.Aliases, h1, h2]

theorem identicalView_ok (a b : Image) (h1 : a.IsForged = true) (h2 : b.IsForged = true) :
    a.IsIdenticalView b = Except.ok (a.isIdenticalViewB b) := by
  simp [Image.IsIdenticalView, h1, h2]

theorem overlappingView_ok (a b : Image) (h1 : a.IsForged = true) (h2 : b.IsForged = true) :
    a.IsOverlappingView b = Except.ok (a.aliasesB b && !(a.isIdenticalViewB b)) := by
  cases hal : a.aliasesB b <;>
    simp [Image.IsOverlappingView, aliases_ok a b h1 h2, identicalView_ok a b h1 h2, hal]

theorem overlappingView_err_left (a b : Image) (h : a.IsForged = false) :
    a.IsOverlappingView b = Except.error DipError.imageNotForged := by
  simp [Image.IsOverlappingView, aliases_err_left a b h]

theorem overlappingView_err_right (a b : Image) (h2 : b.IsForged = false) :
    a.IsOverlappingView b = Except.error DipError.imageNotForged := by
  simp [Image.IsOverlappingView, aliases_err_right a b h2]

theorem overlappingView_forged_of_ok (a b : Image) (v : Bool)
    (h : a.IsOverlappingView b = Except.ok v) :
    a.IsForged = true ∧ b.IsForged = true := by
  cases h1 : a.IsForged
  · rw [overlappingView_err_left a b h1] at h
    exact Except.noConfusion h
  · cases h2 : b.IsForged
    · rw [overlappingView_err_right a b h2] at h
      exact Except.noConfusion h
    · exact ⟨rfl, rfl⟩

theorem any_mem_comm (l1 l2 : List Int) :
    (l1.any fun x => decide (x ∈ l2)) = (l2.any fun x => decide (x ∈ l1)) := by
  rw [Bool.eq_iff_iff]
  simp only [List.any_eq_true, decide_eq_true_eq]
  constructor
  · rintro ⟨x, hx1, hx2⟩
    exact ⟨x, hx2, hx1⟩
  · rintro ⟨x, hx1, hx2⟩
    exact ⟨x, hx2, hx1⟩

theorem aliasesB_comm (a b : Image) : a.aliasesB b = b.aliasesB a :=
  any_mem_comm a.sampleAddresses b.sampleAddresses

/-! The claims. -/

/-- C1: for every pair of forged images A and B, A.IsOverlappingView(B)
returns true if and only if A.Aliases(B) returns true and
A.IsIdenticalView(B) returns false. -/
theorem overlapping_iff_aliases_and_not_identical (a b : Image)
    (h1 : a.IsForged = true) (h2 : b.IsForged = true) :
    a.IsOverlappingView b = Except.ok true ↔
      (a.Aliases b = Except.ok true ∧ a.IsIdenticalView b = Except.ok false) := by
  rw [overlappingView_ok a b h1 h2, aliases_ok a b h1 h2, identicalView_ok a b h1 h2]
  cases a.aliasesB b <;> cases a.isIdenticalViewB b <;> simp

theorem overlapping_iff_aliases_and_not_identical_witness :
    imgA.IsForged = true ∧ imgB.IsForged = true ∧
      (imgA.IsOverlappingView imgB = Except.ok true ↔
        (imgA.Aliases imgB = Except.ok true ∧
         imgA.IsIdenticalView imgB = Except.ok false)) :=
  ⟨rfl, rfl, overlapping_iff_aliases_and_not_identical imgA imgB rfl rfl⟩

/-- C3: for every pair of forged images A and B, A.IsIdenticalView(B) is
true iff origin, data type, strides and tensor stride are all equal; if
either image is raw, the call raises a not-forged error instead. -/
theorem identicalView_spec (a b : Image) :
    (a.IsForged = true → b.IsForged = true →
      (a.IsIdenticalView b = Except.ok true ↔
        (a.origin = b.origin ∧ a.dataType = b.dataType ∧
         a.strides = b.strides ∧ a.tensorStride = b.tensorStride))) ∧
    ((a.IsForged = false ∨ b.IsForged = false) →
      a.IsIdenticalView b = Except.error DipError.imageNotForged) := by
  constructor
  · intro h1 h2
    rw [identicalView_ok a b h1 h2]
    simp [Image.isIdenticalViewB, and_assoc]
  · rintro (h | h)
    · simp [Image.IsIdenticalView, h]
    · cases h1 : a.IsForged <;> simp [Image.IsIdenticalView, h, h1]

theorem identicalView_spec_witness :
    imgA.IsForged = true ∧ imgB.IsForged = true ∧ rawImg.IsForged = false ∧
      (imgA.IsIdenticalView imgB = Except.ok true ↔
        (imgA.origin = imgB.origin ∧ imgA.dataType = imgB.dataType ∧
         imgA.strides = imgB.strides ∧ imgA.tensorStride = imgB.tensorStride)) ∧
      imgA.IsIdenticalView rawImg = Except.error DipError.imageNotForged :=
  ⟨rfl, rfl, rfl, (identicalView_spec imgA imgB).1 rfl rfl,
    (identicalView_spec imgA rawImg).2 (Or.inr rfl)⟩

/-- C4: for every pair of images A and B, A.SharesData(B) raises a
not-forged error when A or B is raw, and otherwise returns true iff the two
images reference the identical storage block; the result depends only on
the dataBlock pointers, not on origins, strides or sizes. -/
theorem sharesData_spec (a b : Image) :
    ((a.IsForged = false ∨ b.IsForged = false) →
      a.SharesData b = Except.error DipError.imageNotForged) ∧
    (a.IsForged = true → b.IsForged = true →
      ((a.SharesData b = Except.ok true ↔ a.dataBlock = b.dataBlock) ∧
       (∀ (o : Int) (sz : List Nat) (st : List Int),
         Image.SharesData { a with origin := some o, sizes := sz, strides := st } b =
           a.SharesData b))) := by
  constructor
  · rintro (h | h)
    · simp [Image.SharesData, h]
    · cases h1 : a.IsForged <;> simp [Image.SharesData, h, h1]
  · intro h1 h2
    constructor
    · simp [Image.SharesData, h1, h2]
    · intro o sz st
      have ha : Image.IsForged { a with origin := some o, sizes := sz, strides := st } = true := rfl
      simp [Image.SharesData, ha, h1, h2]

theorem sharesData_spec_witness :
    imgA.IsForged = true ∧ imgB.IsForged = true ∧ rawImg.IsForged = false ∧
      (imgA.SharesData imgB = Except.ok true ↔ imgA.dataBlock = imgB.dataBlock) ∧
      rawImg.SharesData imgB = Except.error DipError.imageNotForged :=
  ⟨rfl, rfl, rfl, ((sharesData_spec imgA imgB).2 rfl rfl).1,
    (sharesData_spec rawImg imgB).1 (Or.inl rfl)⟩

/-- C8: for every pair of forged images A and B, A.Aliases(B) returns the
same value as B.Aliases(A): the aliasing predicate is symmetric. -/
theorem aliases_symmetric (a b : Image)
    (h1 : a.IsForged = true) (h2 : b.IsForged = true) :
    a.Aliases b = b.Aliases a := by
  rw [aliases_ok a b h1 h2, aliases_ok b a h2 h1, aliasesB_comm]

theorem aliases_symmetric_witness :
    imgA.IsForged = true ∧ imgB.IsForged = true ∧
      imgA.Aliases imgB = imgB.Aliases imgA :=
  ⟨rfl, rfl, aliases_symmetric imgA imgB rfl rfl⟩

/-- C10: for every image A, A.QuickCopy() shares A's data block and origin
and has A's data type, sizes, strides, tensor, tensor stride and external
interface, while its color space is empty, its pixel size is
default-initialized, and its protect flag is cleared. -/
theorem quickCopy_spec (img : Image) :
    (img.QuickCopy).dataBlock = img.dataBlock ∧
    (img.QuickCopy).origin = img.origin ∧
    (img.QuickCopy).dataType = img.dataType ∧
    (img.QuickCopy).sizes = img.sizes ∧
    (img.QuickCopy).strides = img.strides ∧
    (img.QuickCopy).tensor = img.tensor ∧
    (img.QuickCopy).tensorStride = img.tensorStride ∧
    (img.QuickCopy).externalInterface = img.externalInterface ∧
    (img.QuickCopy).colorSpace = "" ∧
    (img.QuickCopy).pixelSize = { entries := [] } ∧
    (img.QuickCopy).protect = false :=
  ⟨rfl, rfl, rfl, rfl, rfl, rfl, rfl, rfl, rfl, rfl, rfl⟩

/-- C2 counterexample: on a raw image whose protect flag is set, Strip does
not fail at all (Strip only tests the protect flag when the image is
forged), contradicting the claim that for every image Strip fails with a
protected condition whenever the protect flag is set. -/
theorem strip_protected_counterexample :
    rawProtected.protect = true ∧ (rawProtected.Strip).1 = none := by decide

/-- C2 amended: Strip on a raw image does nothing, even when the protect
flag is set; on a forged image it fails with the protected condition when
the protect flag is set, and otherwise drops this view's reference to the
storage block and clears the origin, so the image is raw afterwards; the
block is released (its reference count reaches zero) only when this view
held the last reference. -/
theorem strip_spec (img : Image) (vs : List Image) (b : Nat) :
    (img.IsForged = false → img.Strip = (none, img)) ∧
    (img.IsForged = true → img.protect = true →
      img.Strip = (some DipError.imageProtected, img)) ∧
    (img.IsForged = true → img.protect = false →
      (img.Strip).1 = none ∧
      (img.Strip).2 = { img with dataBlock := none, origin := none } ∧
      ((img.Strip).2).IsForged = false ∧
      (img.dataBlock = some b →
        refCount ((img.Strip).2 :: vs) b + 1 = refCount (img :: vs) b ∧
        (refCount ((img.Strip).2 :: vs) b = 0 ↔ refCount vs b = 0))) := by
  refine ⟨fun hf => by simp [Image.Strip, hf], fun hf hp => by simp [Image.Strip, hf, hp],
    fun hf hp => ?_⟩
  have h2 : (img.Strip).2 = { img with dataBlock := none, origin := none } := by
    simp [Image.Strip, hf, hp]
  refine ⟨by simp [Image.Strip, hf, hp], h2, by rw [h2]; rfl, fun hb => ?_⟩
  constructor
  · simp [Image.Strip, refCount, hf, hp, List.filter_cons, hb]
  · simp [Image.Strip, refCount, hf, hp, List.filter_cons]

theorem strip_spec_witness :
    rawProtected.IsForged = false ∧ rawProtected.Strip = (none, rawProtected) ∧
      imgP.IsForged = true ∧ imgP.protect = true ∧
      imgP.Strip = (some DipError.imageProtected, imgP) ∧
      imgA.IsForged = true ∧ imgA.protect = false ∧ imgA.dataBlock = some 0 ∧
      (imgA.Strip).1 = none ∧ ((imgA.Strip).2).IsForged = false ∧
      refCount ((imgA.Strip).2 :: [imgB]) 0 + 1 = refCount (imgA :: [imgB]) 0 :=
  ⟨rfl, (strip_spec rawProtected [] 0).1 rfl,
    rfl, rfl, (strip_spec imgP [] 0).2.1 rfl rfl,
    rfl, rfl, rfl,
    ((strip_spec imgA [imgB] 0).2.2 rfl rfl).1,
    ((strip_spec imgA [imgB] 0).2.2 rfl rfl).2.2.1,
    (((strip_spec imgA [imgB] 0).2.2 rfl rfl).2.2.2 rfl).1⟩

/-- C6: each raw-state mutator (SetSizes, SetStrides, SetTensorStride,
SetDataType, SetTensorSizes, CopyProperties, SetExternalInterface) raises
the state-precondition violation IMAGE_NOT_RAW exactly when the image is
forged, leaving it unchanged, and stores the given value when the image is
raw. -/
theorem raw_mutators_spec (img src : Image) (d : List Nat) (s : List Int)
    (ts : Int) (dt : DataType) (n : Nat) (ei : Option Nat) :
    (img.IsForged = true →
      img.SetSizes d = (some DipError.imageNotRaw, img) ∧
      img.SetStrides s = (some DipError.imageNotRaw, img) ∧
      img.SetTensorStride ts = (some DipError.imageNotRaw, img) ∧
      img.SetDataType dt = (some DipError.imageNotRaw, img) ∧
      img.SetTensorSizes n = (some DipError.imageNotRaw, img) ∧
      img.CopyProperties src = (some DipError.imageNotRaw, img) ∧
      img.SetExternalInterface ei = (some DipError.imageNotRaw, img)) ∧
    (img.IsForged = false →
      img.SetSizes d = (none, { img with sizes := d }) ∧
      img.SetStrides s = (none, { img with strides := s }) ∧
      img.SetTensorStride ts = (none, { img with tensorStride := ts }) ∧
      img.SetDataType dt = (none, { img with dataType := dt }) ∧
      img.SetTensorSizes n = (none, { img with tensor := Tensor.setVector n }) ∧
      img.CopyProperties src = (none, { img with
        dataType := src.dataType
        sizes := src.sizes
        strides := src.strides
        tensor := src.tensor
        tensorStride := src.tensorStride
        colorSpace := src.colorSpace
        pixelSize := src.pixelSize
        externalInterface :=
          if img.externalInterface = none then src.externalInterface
          else img.externalInterface }) ∧
      img.SetExternalInterface ei = (none, { img with externalInterface := ei })) := by
  constructor
  · intro h
    exact ⟨by simp [Image.SetSizes, h], by simp [Image.SetStrides, h],
      by simp [Image.SetTensorStride, h], by simp [Image.SetDataType, h],
      by simp [Image.SetTensorSizes, h], by simp [Image.CopyProperties, h],
      by simp [Image.SetExternalInterface, h]⟩
  · intro h
    exact ⟨by simp [Image.SetSizes, h], by simp [Image.SetStrides, h],
      by simp [Image.SetTensorStride, h], by simp [Image.SetDataType, h],
      by simp [Image.SetTensorSizes, h], by simp [Image.CopyProperties, h],
      by simp [Image.SetExternalInterface, h]⟩

theorem raw_mutators_spec_witness :
    imgA.IsForged = true ∧ rawImg.IsForged = false ∧
      imgA.SetSizes [3] = (some DipError.imageNotRaw, imgA) ∧
      rawImg.SetSizes [3] = (none, { rawImg with sizes := [3] }) ∧
      rawImg.SetDataType DataType.DT_UINT8 =
        (none, { rawImg with dataType := DataType.DT_UINT8 }) :=
  ⟨rfl, rfl,
    ((raw_mutators_spec imgA imgB [3] [] 0 DataType.DT_UINT8 1 none).1 rfl).1,
    ((raw_mutators_spec rawImg imgB [3] [] 0 DataType.DT_UINT8 1 none).2 rfl).1,
    ((raw_mutators_spec rawImg imgB [3] [] 0 DataType.DT_UINT8 1 none).2 rfl).2.2.2.1⟩

/-- C7: whenever one of the mutating operations fails (a raw-state mutator
called on a forged image, or Strip on a protected forged image), the error
is reported with the image left unchanged: every state-changing operation
tests its precondition before mutating any field. -/
theorem failure_preserves_state (img src : Image) (d : List Nat) (s : List Int)
    (ts : Int) (dt : DataType) (n : Nat) (ei : Option Nat) :
    ((img.SetSizes d).1.isSome = true → (img.SetSizes d).2 = img) ∧
    ((img.SetStrides s).1.isSome = true → (img.SetStrides s).2 = img) ∧
    ((img.SetTensorStride ts).1.isSome = true → (img.SetTensorStride ts).2 = img) ∧
    ((img.SetDataType dt).1.isSome = true → (img.SetDataType dt).2 = img) ∧
    ((img.SetTensorSizes n).1.isSome = true → (img.SetTensorSizes n).2 = img) ∧
    ((img.CopyProperties src).1.isSome = true → (img.CopyProperties src).2 = img) ∧
    ((img.SetExternalInterface ei).1.isSome = true → (img.SetExternalInterface ei).2 = img) ∧
    ((img.Strip).1.isSome = true → (img.Strip).2 = img) := by
  cases hf : img.IsForged <;> cases hp : img.protect <;>
    simp [Image.SetSizes, Image.SetStrides, Image.SetTensorStride, Image.SetDataType,
      Image.SetTensorSizes, Image.CopyProperties, Image.SetExternalInterface,
      Image.Strip, hf, hp]

theorem failure_preserves_state_witness :
    (imgA.SetSizes [3]).1.isSome = true ∧ (imgA.SetSizes [3]).2 = imgA ∧
      (imgP.Strip).1.isSome = true ∧ (imgP.Strip).2 = imgP :=
  ⟨rfl, (failure_preserves_state imgA imgB [3] [] 0 DataType.DT_UINT8 1 none).1 rfl,
    rfl, (failure_preserves_state imgP imgB [3] [] 0 DataType.DT_UINT8 1 none).2.2.2.2.2.2.2 rfl⟩

/-- C5: for a forged image A, the collection overload of IsOverlappingView
returns true iff some element of the collection overlaps A in the sense of
the single-image IsOverlappingView; and once an overlapping element is
reached the result is true regardless of the elements after it (the loop
returns at the first match). -/
theorem overlappingViewList_spec (a : Image) (h : a.IsForged = true) :
    (∀ l : List Image, a.isOverlappingViewList l = Except.ok true ↔
       ∃ b ∈ l, a.IsOverlappingView b = Except.ok true) ∧
    (∀ (b : Image) (rest : List Image), a.IsOverlappingView b = Except.ok true →
       a.isOverlappingViewList (b :: rest) = Except.ok true) := by
  have hstep : ∀ (b : Image) (rest : List Image), a.IsOverlappingView b = Except.ok true →
      a.isOverlappingViewList (b :: rest) = Except.ok true := by
    intro b rest hov
    have hb : b.IsForged = true := (overlappingView_forged_of_ok a b true hov).2
    simp [Image.isOverlappingViewList, hb, hov]
  refine ⟨?_, hstep⟩
  intro l
  induction l with
  | nil => simp [Image.isOverlappingViewList]
  | cons b rest ih =>
    cases hb : b.IsForged
    case false =>
      have hskip : a.isOverlappingViewList (b :: rest) = a.isOverlappingViewList rest := by
        simp [Image.isOverlappingViewList, hb]
      rw [hskip, ih]
      constructor
      · rintro ⟨c, hc, ho⟩
        exact ⟨c, List.mem_cons_of_mem _ hc, ho⟩
      · rintro ⟨c, hc, ho⟩
        rcases List.mem_cons.mp hc with h1 | h1
        · subst h1
          rw [overlappingView_err_right a c hb] at ho
          exact Except.noConfusion ho
        · exact ⟨c, h1, ho⟩
    case true =>
      have hov := overlappingView_ok a b h hb
      cases hv : (a.aliasesB b && !(a.isIdenticalViewB b))
      case false =>
        have hskip : a.isOverlappingViewList (b :: rest) = a.isOverlappingViewList rest := by
          simp [Image.isOverlappingViewList, hb, hov, hv]
        rw [hskip, ih]
        constructor
        · rintro ⟨c, hc, ho⟩
          exact ⟨c, List.mem_cons_of_mem _ hc, ho⟩
        · rintro ⟨c, hc, ho⟩
          rcases List.mem_cons.mp hc with h1 | h1
          · subst h1
            rw [hov, hv] at ho
            simp at ho
          · exact ⟨c, h1, ho⟩
      case true =>
        have hfirst : a.IsOverlappingView b = Except.ok true := by rw [hov, hv]
        rw [hstep b rest hfirst]
        simp only [true_iff, iff_true]
        exact ⟨b, List.mem_cons_self b rest, hfirst⟩

theorem overlappingViewList_spec_witness :
    imgA.IsForged = true ∧
      (imgA.isOverlappingViewList [rawImg, imgB] = Except.ok true ↔
        ∃ b ∈ [rawImg, imgB], imgA.IsOverlappingView b = Except.ok true) :=
  ⟨rfl, (overlappingViewList_spec imgA rfl).1 [rawImg, imgB]⟩

/-- C9: the collection overloads of IsOverlappingView skip every raw
element without error and return false when the collection is empty or
contains only raw images, whether or not A itself is forged; a not-forged
error is raised for a raw A only when a forged candidate is actually
compared. -/
theorem overlappingViewList_raw_spec (a : Image) :
    (∀ l : List Image, (∀ b ∈ l, b.IsForged = false) →
       a.isOverlappingViewList l = Except.ok false) ∧
    (∀ (b : Image) (l : List Image), b.IsForged = false →
       a.isOverlappingViewList (b :: l) = a.isOverlappingViewList l) ∧
    (∀ (b : Image) (l : List Image), a.IsForged = false → b.IsForged = true →
       a.isOverlappingViewList (b :: l) = Except.error DipError.imageNotForged) := by
  refine ⟨?_, fun b l hb => by simp [Image.isOverlappingViewList, hb], fun b l ha hb => ?_⟩
  · intro l
    induction l with
    | nil => intro _; simp [Image.isOverlappingViewList]
    | cons b rest ih =>
      intro hall
      have hb : b.IsForged = false := hall b (List.mem_cons_self b rest)
      rw [show a.isOverlappingViewList (b :: rest) = a.isOverlappingViewList rest from by
        simp [Image.isOverlappingViewList, hb]]
      exact ih fun c hc => hall c (List.mem_cons_of_mem _ hc)
  · simp [Image.isOverlappingViewList, hb, overlappingView_err_left a b ha]

theorem overlappingViewList_raw_spec_witness :
    rawImg.isOverlappingViewList [rawProtected] = Except.ok false ∧
      rawImg.IsForged = false ∧ imgA.IsForged = true ∧ rawProtected.IsForged = false ∧
      rawImg.isOverlappingViewList [rawProtected, imgA] =
        rawImg.isOverlappingViewList [imgA] ∧
      rawImg.isOverlappingViewList [imgA] = Except.error DipError.imageNotForged :=
  ⟨(overlappingViewList_raw_spec rawImg).1 [rawProtected]
      (by intro b hb; simp at hb; subst hb; rfl),
    rfl, rfl, rfl,
    (overlappingViewList_raw_spec rawImg).2.1 rawProtected [imgA] rfl,
    (overlappingViewList_raw_spec rawImg).2.2 imgA [] rfl rfl⟩

end Dip
